import Mathlib

/-!
Verification of the streamlit-bokeh frontend component.

The definitions below are a shallow embedding of the TypeScript sources:
  * the change detector (`getChartDataGenerator`, `setChartThemeGenerator`),
  * the dimension computation (`getChartDimensions`) and the dimension
    patch performed by `updateChart`,
  * the global asset loader (`loadScriptOnce`, `ensureBokehCoreLoaded`,
    `loadBokehGlobally`),
  * the theme translator (`streamlitTheme`),
  * the per-host-element instance state (`componentState`,
    `getOrCreateInstanceState`, the cleanup callback of `bokehComponent`).

Mutable closure variables become explicit state records threaded through the
functions; JS numbers are modelled as rationals; JSON.parse (external) is an
abstract `parse : String → α` parameter; the `window.Bokeh.Themes` registry is
modelled as the list of its keys; asynchronous completion within a timeout is
modelled by environment booleans and, for the loader ordering, by event traces.
-/

namespace StreamlitBokeh

/-- Association-list lookup: the first binding of key `u`, if any.  Models both
the `Map`/record lookups of the loader module and the `WeakMap` lookup of the
per-instance component state. -/
def alookup {κ β : Type} [DecidableEq κ] (u : κ) : List (κ × β) → Option β
  | [] => none
  | (k, v) :: rest => if k = u then some v else alookup u rest

/-- Association-list update: replace the binding of `u` (or append one). Models
`WeakMap.set`. -/
def aset {κ β : Type} [DecidableEq κ] (u : κ) (v : β) : List (κ × β) → List (κ × β)
  | [] => [(u, v)]
  | (k, w) :: rest => if k = u then (u, v) :: rest else (k, w) :: aset u v rest

/-- Association-list deletion of key `u`. Models `WeakMap.delete`. -/
def aremove {κ β : Type} [DecidableEq κ] (u : κ) : List (κ × β) → List (κ × β)
  | [] => []
  | (k, w) :: rest => if k = u then aremove u rest else (k, w) :: aremove u rest

/-! ## Change detector: chart data memoization

From `getChartDataGenerator` (part_006 lines 45-59): two closure variables
`savedFigure : string | null` and `savedChartData : object | null`, compared
against the incoming figure string with `!==`. -/

/-- The closure state of one instance of the data-check function produced by
`getChartDataGenerator`. -/
structure DataState (α : Type) where
  savedFigure : Option String
  savedChartData : Option α
deriving Repr, DecidableEq

/-- The fresh closure state: `savedFigure = null`, `savedChartData = null`. -/
def initDataState {α : Type} : DataState α := ⟨none, none⟩

/-- The `{ data, hasChanged }` object returned by the data-check function. -/
structure DataResult (α : Type) where
  data : Option α
  hasChanged : Bool
deriving Repr, DecidableEq

/-- One call of the memoized data-check function.  `parse` stands for the
external `JSON.parse`.  In JS, `figure !== savedFigure` is true whenever
`savedFigure` is `null` (a string never equals `null`), which is exactly
`st.savedFigure ≠ some figure` here. -/
def getChartData {α : Type} (parse : String → α) (st : DataState α) (figure : String) :
    DataState α × DataResult α :=
  if st.savedFigure ≠ some figure then
    (⟨some figure, some (parse figure)⟩, ⟨some (parse figure), true⟩)
  else
    (st, ⟨st.savedChartData, false⟩)

/-- The closure state after a sequence of calls with the given figure strings,
starting from a fresh instance. -/
def runChartData {α : Type} (parse : String → α) (figs : List String) : DataState α :=
  figs.foldl (fun st f => (getChartData parse st f).1) initDataState

/-- Cache coherence: whenever a figure string is recorded, the recorded chart
data is its parse. -/
def DataCoherent {α : Type} (parse : String → α) (st : DataState α) : Prop :=
  ∀ f, st.savedFigure = some f → st.savedChartData = some (parse f)

theorem getChartData_fst_coherent {α : Type} (parse : String → α) (st : DataState α)
    (figure : String) (h : DataCoherent parse st) :
    DataCoherent parse (getChartData parse st figure).1 := by
  by_cases hc : st.savedFigure = some figure
  · simpa [getChartData, hc] using h
  · intro f hf
    simp [getChartData, hc] at hf ⊢
    simp [hf]

theorem runChartData_coherent {α : Type} (parse : String → α) (figs : List String) :
    DataCoherent parse (runChartData parse figs) := by
  suffices h : ∀ (st : DataState α), DataCoherent parse st →
      DataCoherent parse (figs.foldl (fun st f => (getChartData parse st f).1) st) by
    exact h initDataState (by intro f hf; simp [initDataState] at hf)
  induction figs with
  | nil => intro st hst; simpa using hst
  | cons f fs ih =>
    intro st hst
    exact ih _ (getChartData_fst_coherent parse st f hst)

theorem getChartData_fst_savedFigure {α : Type} (parse : String → α) (st : DataState α)
    (figure : String) : (getChartData parse st figure).1.savedFigure = some figure := by
  by_cases hc : st.savedFigure = some figure
  · simp [getChartData, hc]
  · simp [getChartData, hc]

/-- After a non-empty call history, the recorded figure is the last call's
figure string. -/
theorem runChartData_savedFigure_last {α : Type} (parse : String → α)
    (pre : List String) (prev : String) :
    (runChartData parse (pre ++ [prev])).savedFigure = some prev := by
  unfold runChartData
  rw [List.foldl_append]
  exact getChartData_fst_savedFigure parse _ prev

/-- C1: for every instance of the data-check function produced by
`getChartDataGenerator` and every call history: the first call with any string
reports `hasChanged = true` and returns the parse of that string; a call whose
string equals the immediately preceding call's string reports
`hasChanged = false` and returns the previously cached parsed value (which is
the parse of that string, never re-computed from a different string); a call
whose string differs from the last-seen string parses and caches the new
string and reports `hasChanged = true`. -/
theorem chartData_memoization {α : Type} (parse : String → α) (figs : List String)
    (fig : String) :
    (figs = [] →
      getChartData parse (runChartData parse figs) fig
        = (⟨some fig, some (parse fig)⟩, ⟨some (parse fig), true⟩))
  ∧ (∀ pre, figs = pre ++ [fig] →
      getChartData parse (runChartData parse figs) fig
        = (runChartData parse figs, ⟨some (parse fig), false⟩))
  ∧ (∀ pre prev, figs = pre ++ [prev] → prev ≠ fig →
      getChartData parse (runChartData parse figs) fig
        = (⟨some fig, some (parse fig)⟩, ⟨some (parse fig), true⟩)) := by
  refine ⟨?_, ?_, ?_⟩
  · intro h
    subst h
    simp [runChartData, getChartData, initDataState]
  · intro pre h
    subst h
    have hlast := runChartData_savedFigure_last parse pre fig
    have hcoh := runChartData_coherent parse (pre ++ [fig]) fig hlast
    simp [getChartData, hlast, hcoh]
  · intro pre prev h hne
    subst h
    have hlast := runChartData_savedFigure_last parse pre prev
    have hne' : (runChartData parse (pre ++ [prev])).savedFigure ≠ some fig := by
      rw [hlast]; simpa using hne
    simp [getChartData, hne']

theorem chartData_memoization_witness :
    getChartData String.length (runChartData String.length ["ab"]) "ab"
      = (runChartData String.length ["ab"], ⟨some 2, false⟩) :=
  (chartData_memoization String.length ["ab"] "ab").2.1 [] rfl

/-! ## Change detector: theme memoization

From `setChartThemeGenerator` (part_006 lines 61-94): closure variables
`currentTheme : string | null` and `appTheme : string | null`; the incoming
app-theme snapshot is serialized with `JSON.stringify` before comparison, so
the serialized snapshot is taken as the input here.  The registry
`window.Bokeh.Themes` (an external object whose keys are the built-in theme
names) is modelled by the list of its keys. -/

/-- The closure state of one instance of the theme-check function produced by
`setChartThemeGenerator`. -/
structure ThemeState where
  currentTheme : Option String
  appTheme : Option String
deriving Repr, DecidableEq

/-- The fresh closure state: both variables `null`. -/
def initThemeState : ThemeState := ⟨none, none⟩

/-- One call of the theme-check function.  The outer `if` is the source's
update condition (`newTheme !== currentTheme || (currentTheme === "streamlit"
&& appTheme !== renderedAppTheme)`); inside it, `currentTheme` has just been
assigned `newTheme`, so the inner test `currentTheme === "streamlit" ||
!(currentTheme in window.Bokeh.Themes)` reads `newTheme`.  `themeChanged` is
set to `true` only in the streamlit-derived branch of the inner test. -/
def setChartTheme (themes : List String) (st : ThemeState)
    (newTheme rendered : String) : ThemeState × Bool :=
  if some newTheme ≠ st.currentTheme ∨
      (st.currentTheme = some "streamlit" ∧ st.appTheme ≠ some rendered) then
    if newTheme = "streamlit" ∨ ¬ newTheme ∈ themes then
      (⟨some newTheme, some rendered⟩, true)
    else
      (⟨some newTheme, some rendered⟩, false)
  else
    (st, false)

/-- The keys of the `window.Bokeh.Themes` registry, as set up in the
repository's test environment (part_008) and matching Bokeh's built-in
themes. -/
def bokehBuiltinThemes : List String :=
  ["caliber", "dark_minimal", "light_minimal", "contrast", "night_sky"]

/-- C2 counterexample: on a fresh instance, a first call whose theme name is a
registered built-in (`"dark_minimal"`) returns `false` — the claim says the
first call always returns `true` — and it nevertheless records the new
name/snapshot as current, although `true` was not returned. -/
theorem setChartTheme_builtin_first_call_false :
    setChartTheme bokehBuiltinThemes initThemeState "dark_minimal" "snap"
      = (⟨some "dark_minimal", some "snap"⟩, false) := by
  simp [setChartTheme, initThemeState, bokehBuiltinThemes]

/-- C2 amended: the call returns `true` exactly when the change condition of
the claim holds — (a) `newTheme` differs from the last-applied name, or (b)
`newTheme` is the sentinel `"streamlit"` and the serialized snapshot differs —
AND the streamlit-derived theme is the one applied (`newTheme` is the sentinel
or is not a key of the built-in registry); whenever the change condition
holds, the new name/snapshot are recorded as current, even when `false` is
returned (built-in branch); when it does not hold, the state is unchanged and
`false` is returned; accordingly a first call on a fresh instance returns
`true` iff the name is the sentinel or not a registered built-in. -/
theorem setChartTheme_spec (themes : List String) (st : ThemeState)
    (newTheme rendered : String) :
    ((setChartTheme themes st newTheme rendered).2 = true ↔
      ((some newTheme ≠ st.currentTheme ∨
          (newTheme = "streamlit" ∧ st.appTheme ≠ some rendered))
        ∧ (newTheme = "streamlit" ∨ ¬ newTheme ∈ themes)))
  ∧ ((some newTheme ≠ st.currentTheme ∨
        (newTheme = "streamlit" ∧ st.appTheme ≠ some rendered)) →
      (setChartTheme themes st newTheme rendered).1 = ⟨some newTheme, some rendered⟩)
  ∧ (¬ (some newTheme ≠ st.currentTheme ∨
        (newTheme = "streamlit" ∧ st.appTheme ≠ some rendered)) →
      setChartTheme themes st newTheme rendered = (st, false))
  ∧ ((setChartTheme themes initThemeState newTheme rendered).2 = true ↔
      (newTheme = "streamlit" ∨ ¬ newTheme ∈ themes)) := by
  have hcond : (some newTheme ≠ st.currentTheme ∨
        (st.currentTheme = some "streamlit" ∧ st.appTheme ≠ some rendered)) ↔
      (some newTheme ≠ st.currentTheme ∨
        (newTheme = "streamlit" ∧ st.appTheme ≠ some rendered)) := by
    by_cases h : some newTheme = st.currentTheme
    · constructor
      · rintro (hne | ⟨hcur, hsnap⟩)
        · exact Or.inl hne
        · refine Or.inr ⟨?_, hsnap⟩
          rw [← h] at hcur
          exact Option.some_inj.mp hcur
      · rintro (hne | ⟨hcur, hsnap⟩)
        · exact Or.inl hne
        · exact Or.inr ⟨by rw [← h, hcur], hsnap⟩
    · exact ⟨fun _ => Or.inl h, fun _ => Or.inl h⟩
  refine ⟨?_, ?_, ?_, ?_⟩
  · rw [← hcond]
    by_cases hc : some newTheme ≠ st.currentTheme ∨
        (st.currentTheme = some "streamlit" ∧ st.appTheme ≠ some rendered)
    · by_cases hs : newTheme = "streamlit" ∨ ¬ newTheme ∈ themes
      · simp [setChartTheme, hc, hs]
      · simp [setChartTheme, hc, hs]
    · simp [setChartTheme, hc]
  · intro hc
    rw [← hcond] at hc
    by_cases hs : newTheme = "streamlit" ∨ ¬ newTheme ∈ themes
    · simp [setChartTheme, hc, hs]
    · simp [setChartTheme, hc, hs]
  · intro hc
    rw [← hcond] at hc
    simp [setChartTheme, hc]
  · have hfresh : some newTheme ≠ initThemeState.currentTheme := by
      simp [initThemeState]
    by_cases hs : newTheme = "streamlit" ∨ ¬ newTheme ∈ themes
    · simp [setChartTheme, hfresh, hs]
    · simp [setChartTheme, hfresh, hs]

theorem setChartTheme_spec_witness :
    setChartTheme bokehBuiltinThemes initThemeState "streamlit" "snap"
      = (⟨some "streamlit", some "snap"⟩, true) := by
  have h := (setChartTheme_spec bokehBuiltinThemes initThemeState "streamlit" "snap").2.1
    (Or.inl (by simp [initThemeState]))
  have h2 := ((setChartTheme_spec bokehBuiltinThemes initThemeState "streamlit"
    "snap").2.2.2).mpr (Or.inl rfl)
  have hpair : setChartTheme bokehBuiltinThemes initThemeState "streamlit" "snap"
      = ((setChartTheme bokehBuiltinThemes initThemeState "streamlit" "snap").1,
         (setChartTheme bokehBuiltinThemes initThemeState "streamlit" "snap").2) := rfl
  rw [hpair, h, h2]

/-! ## Dimensions and the updateChart dimension patch

From `getChartDimensions` and `updateChart` (part_006 lines 96-160).  JS
numbers are modelled as rationals (`clientWidth` is fractional).  The parsed
chart definition's root plot node `data.doc.roots[0]` carries an `attributes`
record with optional `width`/`height`; all its remaining attributes are kept
opaque in the `other` field. -/

/-- Bokeh's default plot width, `DEFAULT_WIDTH` in the source. -/
def DEFAULT_WIDTH : ℚ := 400

/-- Bokeh's default plot height, `DEFAULT_HEIGHT` in the source. -/
def DEFAULT_HEIGHT : ℚ := 350

/-- The `attributes` record of the root plot node: optional `width`/`height`
(`plot.attributes.width ?? DEFAULT_WIDTH` is nullish coalescing, i.e.
`Option.getD`), with every other attribute opaque and untouched. -/
structure PlotAttributes where
  width : Option ℚ
  height : Option ℚ
  other : List (String × String)
deriving Repr, DecidableEq

/-- The `Dimensions` interface of the source. -/
structure Dimensions where
  width : ℚ
  height : ℚ
deriving Repr, DecidableEq

/-- `getChartDimensions(plot, useContainerWidth, parentElement)`;
`clientWidth` stands for `parentElement.clientWidth`. -/
def getChartDimensions (plot : PlotAttributes) (useContainerWidth : Bool)
    (clientWidth : ℚ) : Dimensions :=
  let originalWidth := plot.width.getD DEFAULT_WIDTH
  let originalHeight := plot.height.getD DEFAULT_HEIGHT
  if useContainerWidth then
    ⟨clientWidth, clientWidth / originalWidth * originalHeight⟩
  else
    ⟨originalWidth, originalHeight⟩

/-- C3: with container-fit off, `getChartDimensions` returns the plot's own
width/height, falling back to the fixed defaults 400×350 when absent; with
container-fit on, it returns the container's `clientWidth` and the height
scaled by `clientWidth / originalWidth`, preserving the native aspect ratio
(when the native width is nonzero); native 800×400 in a container of width
1200 yields 1200×600. -/
theorem getChartDimensions_spec (plot : PlotAttributes) (cw : ℚ) :
    (getChartDimensions plot false cw
      = ⟨plot.width.getD 400, plot.height.getD 350⟩)
  ∧ (plot.width = none → plot.height = none →
      getChartDimensions plot false cw = ⟨400, 350⟩)
  ∧ (getChartDimensions plot true cw
      = ⟨cw, cw / plot.width.getD 400 * plot.height.getD 350⟩)
  ∧ (plot.width.getD 400 ≠ 0 →
      (getChartDimensions plot true cw).height * plot.width.getD 400
        = (getChartDimensions plot true cw).width * plot.height.getD 350)
  ∧ (getChartDimensions ⟨some 800, some 400, []⟩ true 1200 = ⟨1200, 600⟩) := by
  refine ⟨?_, ?_, ?_, ?_, ?_⟩
  · simp [getChartDimensions, DEFAULT_WIDTH, DEFAULT_HEIGHT]
  · intro hw hh
    simp [getChartDimensions, hw, hh, DEFAULT_WIDTH, DEFAULT_HEIGHT]
  · simp [getChartDimensions, DEFAULT_WIDTH, DEFAULT_HEIGHT]
  · intro hw
    simp only [getChartDimensions, DEFAULT_WIDTH, DEFAULT_HEIGHT, if_pos]
    field_simp
  · simp [getChartDimensions, DEFAULT_WIDTH, DEFAULT_HEIGHT]
    norm_num

theorem getChartDimensions_spec_witness :
    getChartDimensions ⟨none, none, []⟩ false 999 = ⟨400, 350⟩ :=
  (getChartDimensions_spec ⟨none, none, []⟩ 999).2.1 rfl rfl

/-- The dimension-patching step of `updateChart` on the root plot node: the
computed width (resp. height) is written onto `plot.attributes` only when
strictly positive. -/
def patchPlot (plot : PlotAttributes) (useContainerWidth : Bool)
    (clientWidth : ℚ) : PlotAttributes :=
  let dims := getChartDimensions plot useContainerWidth clientWidth
  let p1 := if 0 < dims.width then { plot with width := some dims.width } else plot
  if 0 < dims.height then { p1 with height := some dims.height } else p1

/-- The `doc` node of a parsed chart definition: `roots` plus the rest of the
document, opaque. -/
structure BokehDoc (ρ : Type) where
  roots : List PlotAttributes
  docRest : ρ
deriving Repr, DecidableEq

/-- A parsed chart definition (`data` in `updateChart`): an optional `doc`
node plus the rest of the object, opaque.  `data?.doc?.roots?.[0]` is the
head of `roots` when present. -/
structure ChartItem (ρ σ : Type) where
  doc : Option (BokehDoc ρ)
  itemRest : σ
deriving Repr, DecidableEq

/-- The effect of `updateChart` on the parsed chart definition: when the root
plot node exists, patch its dimensions in place; otherwise leave the data
untouched.  (The subsequent embed call does not modify the definition.) -/
def updateChartData {ρ σ : Type} (data : ChartItem ρ σ) (useContainerWidth : Bool)
    (clientWidth : ℚ) : ChartItem ρ σ :=
  match data.doc with
  | none => data
  | some d =>
    match d.roots with
    | [] => data
    | plot :: rest =>
      { data with doc := some ⟨patchPlot plot useContainerWidth clientWidth :: rest, d.docRest⟩ }

/-- C9: during a chart update a computed dimension is written back onto the
root plot node only when strictly positive — a zero-or-negative computed width
(resp. height) leaves the plot's width (resp. height) attribute unchanged —
all other plot attributes are unchanged in every case, and nothing outside the
root plot node of the chart definition is modified (no doc, empty roots, the
tail of roots, and the rest of the document and item are all left as they
were). -/
theorem updateChart_dimension_patch {ρ σ : Type} (data : ChartItem ρ σ)
    (plot : PlotAttributes) (u : Bool) (cw : ℚ) :
    ((patchPlot plot u cw).other = plot.other)
  ∧ (0 < (getChartDimensions plot u cw).width →
      (patchPlot plot u cw).width = some (getChartDimensions plot u cw).width)
  ∧ ((getChartDimensions plot u cw).width ≤ 0 →
      (patchPlot plot u cw).width = plot.width)
  ∧ (0 < (getChartDimensions plot u cw).height →
      (patchPlot plot u cw).height = some (getChartDimensions plot u cw).height)
  ∧ ((getChartDimensions plot u cw).height ≤ 0 →
      (patchPlot plot u cw).height = plot.height)
  ∧ ((updateChartData data u cw).itemRest = data.itemRest)
  ∧ (data.doc = none → updateChartData data u cw = data)
  ∧ (∀ d, data.doc = some d → d.roots = [] → updateChartData data u cw = data)
  ∧ (∀ d p rest, data.doc = some d → d.roots = p :: rest →
      (updateChartData data u cw).doc = some ⟨patchPlot p u cw :: rest, d.docRest⟩) := by
  refine ⟨?_, ?_, ?_, ?_, ?_, ?_, ?_, ?_, ?_⟩
  · by_cases hw : 0 < (getChartDimensions plot u cw).width
    · by_cases hh : 0 < (getChartDimensions plot u cw).height
      · simp [patchPlot, hw, hh]
      · simp [patchPlot, hw, hh]
    · by_cases hh : 0 < (getChartDimensions plot u cw).height
      · simp [patchPlot, hw, hh]
      · simp [patchPlot, hw, hh]
  · intro hw
    by_cases hh : 0 < (getChartDimensions plot u cw).height
    · simp [patchPlot, hw, hh]
    · simp [patchPlot, hw, hh]
  · intro hw
    have hw' : ¬ 0 < (getChartDimensions plot u cw).width := not_lt.mpr hw
    by_cases hh : 0 < (getChartDimensions plot u cw).height
    · simp [patchPlot, hw', hh]
    · simp [patchPlot, hw', hh]
  · intro hh
    by_cases hw : 0 < (getChartDimensions plot u cw).width
    · simp [patchPlot, hw, hh]
    · simp [patchPlot, hw, hh]
  · intro hh
    have hh' : ¬ 0 < (getChartDimensions plot u cw).height := not_lt.mpr hh
    by_cases hw : 0 < (getChartDimensions plot u cw).width
    · simp [patchPlot, hw, hh']
    · simp [patchPlot, hw, hh']
  · cases hd : data.doc with
    | none => simp [updateChartData, hd]
    | some d =>
      cases hr : d.roots with
      | nil => simp [updateChartData, hd, hr]
      | cons p rest => simp [updateChartData, hd, hr]
  · intro hd
    simp [updateChartData, hd]
  · intro d hd hr
    simp [updateChartData, hd, hr]
  · intro d p rest hd hr
    simp [updateChartData, hd, hr]

theorem updateChart_dimension_patch_witness :
    ((patchPlot ⟨some 800, some 400, []⟩ true 1200).width = some 1200)
  ∧ ((updateChartData (⟨some ⟨[⟨some 800, some 400, []⟩], 0⟩, 0⟩ : ChartItem ℕ ℕ)
        true 1200).doc
      = some ⟨[patchPlot ⟨some 800, some 400, []⟩ true 1200], 0⟩) := by
  constructor
  · have h := (updateChart_dimension_patch
        (⟨none, 0⟩ : ChartItem ℕ ℕ) ⟨some 800, some 400, []⟩ true 1200).2.1
      (by norm_num [getChartDimensions, DEFAULT_WIDTH, DEFAULT_HEIGHT])
    rw [h]
    norm_num [getChartDimensions, DEFAULT_WIDTH, DEFAULT_HEIGHT]
  · exact (updateChart_dimension_patch
        (⟨some ⟨[⟨some 800, some 400, []⟩], 0⟩, 0⟩ : ChartItem ℕ ℕ)
        ⟨some 800, some 400, []⟩ true 1200).2.2.2.2.2.2.2.2
      ⟨[⟨some 800, some 400, []⟩], 0⟩ ⟨some 800, some 400, []⟩ [] rfl rfl

/-! ## Asset loader: per-URL coalescing

From `loadScriptOnce` and the module-scoped `scriptLoadPromises` map
(part_004 lines 49-133).  Promises are identified by allocation order
(`nextPromiseId`); all callers that receive the same promise id observe the
same eventual success or failure.  `appendedScripts` is the log of `<script>`
elements appended to the document head by `loadScriptOnce`; the per-call
environment flags say whether the document already contains an externally
injected script tag with this `src` and whether that tag is marked
`data-loaded`. -/

/-- One invocation of `loadScriptOnce(src)` together with its DOM
environment. -/
structure LoaderCall where
  src : String
  existingFound : Bool
  existingLoaded : Bool
deriving Repr, DecidableEq

/-- The module-scoped state of the loader: the URL → promise cache, the log of
appended script elements, and the next fresh promise id. -/
structure LoaderState where
  scriptLoadPromises : List (String × ℕ)
  appendedScripts : List String
  nextPromiseId : ℕ
deriving Repr, DecidableEq

/-- The state at module load: empty cache, nothing appended. -/
def initLoaderState : LoaderState := ⟨[], [], 0⟩

/-- One synchronous execution of `loadScriptOnce` up to returning its promise:
cache hit returns the cached promise unchanged; otherwise a promise is
created (already-resolved when an existing tag is marked loaded), a script
element is appended only when no matching tag exists, and the promise is
stored in the cache.  `findScriptBySrc` finds externally injected tags and
tags previously appended by `loadScriptOnce` alike. -/
def loadScriptOnce (st : LoaderState) (c : LoaderCall) : LoaderState × ℕ :=
  match alookup c.src st.scriptLoadPromises with
  | some p => (st, p)
  | none =>
    let existing := c.existingFound || decide (c.src ∈ st.appendedScripts)
    if existing && c.existingLoaded then
      (⟨(c.src, st.nextPromiseId) :: st.scriptLoadPromises,
        st.appendedScripts, st.nextPromiseId + 1⟩, st.nextPromiseId)
    else
      (⟨(c.src, st.nextPromiseId) :: st.scriptLoadPromises,
        if existing then st.appendedScripts else c.src :: st.appendedScripts,
        st.nextPromiseId + 1⟩, st.nextPromiseId)

/-- Run a sequence of `loadScriptOnce` calls, collecting each call's
`(src, returned promise)` pair. -/
def runLoaderAux (st : LoaderState) (res : List (String × ℕ)) :
    List LoaderCall → LoaderState × List (String × ℕ)
  | [] => (st, res)
  | c :: cs =>
    runLoaderAux (loadScriptOnce st c).1 (res ++ [(c.src, (loadScriptOnce st c).2)]) cs

/-- Run a call sequence from the module-load state. -/
def runLoader (cs : List LoaderCall) : LoaderState × List (String × ℕ) :=
  runLoaderAux initLoaderState [] cs

theorem alookup_eq_none_not_mem_keys {β : Type} (u : String) (l : List (String × β))
    (h : alookup u l = none) : u ∉ l.map Prod.fst := by
  induction l with
  | nil => simp
  | cons kv rest ih =>
    obtain ⟨k, v⟩ := kv
    by_cases hk : k = u
    · simp [alookup, hk] at h
    · simp only [alookup, hk, if_neg, ite_false] at h
      simpa [Ne.symm hk] using ih h

theorem loadScriptOnce_mono (st : LoaderState) (c : LoaderCall) (u : String) (p : ℕ)
    (h : alookup u st.scriptLoadPromises = some p) :
    alookup u (loadScriptOnce st c).1.scriptLoadPromises = some p := by
  unfold loadScriptOnce
  cases hc : alookup c.src st.scriptLoadPromises with
  | some q => simpa using h
  | none =>
    have hne : c.src ≠ u := by
      intro he
      rw [he, h] at hc
      exact Option.noConfusion hc
    by_cases hb : (c.existingFound || decide (c.src ∈ st.appendedScripts)) && c.existingLoaded
    · simpa [hb, alookup, hne] using h
    · simpa [hb, alookup, hne] using h

theorem loadScriptOnce_result (st : LoaderState) (c : LoaderCall) :
    alookup c.src (loadScriptOnce st c).1.scriptLoadPromises
      = some (loadScriptOnce st c).2 := by
  unfold loadScriptOnce
  cases hc : alookup c.src st.scriptLoadPromises with
  | some q => simpa using hc
  | none =>
    by_cases hb : (c.existingFound || decide (c.src ∈ st.appendedScripts)) && c.existingLoaded
    · simp [hb, alookup]
    · simp [hb, alookup]

theorem loadScriptOnce_invariant (st : LoaderState) (c : LoaderCall)
    (happ : st.appendedScripts.Nodup)
    (hkeys : (st.scriptLoadPromises.map Prod.fst).Nodup) :
    (loadScriptOnce st c).1.appendedScripts.Nodup
    ∧ ((loadScriptOnce st c).1.scriptLoadPromises.map Prod.fst).Nodup := by
  unfold loadScriptOnce
  cases hc : alookup c.src st.scriptLoadPromises with
  | some q => exact ⟨happ, hkeys⟩
  | none =>
    have hnotkey := alookup_eq_none_not_mem_keys c.src st.scriptLoadPromises hc
    have hkeys2 : (c.src :: st.scriptLoadPromises.map Prod.fst).Nodup :=
      List.nodup_cons.mpr ⟨hnotkey, hkeys⟩
    by_cases hb : (c.existingFound || decide (c.src ∈ st.appendedScripts)) && c.existingLoaded
    · exact ⟨by simpa [hb] using happ, by simpa [hb] using hkeys2⟩
    · refine ⟨?_, by simpa [hb] using hkeys2⟩
      simp only [hb, if_neg, ite_false]
      by_cases hex : c.existingFound || decide (c.src ∈ st.appendedScripts)
      · simpa [hex] using happ
      · have hmem : c.src ∉ st.appendedScripts := by
          simp only [Bool.or_eq_true, decide_eq_true_eq, not_or] at hex
          exact hex.2
        simpa [hex] using ⟨hmem, happ⟩

theorem runLoaderAux_invariant (cs : List LoaderCall) :
    ∀ (st : LoaderState) (res : List (String × ℕ)),
      st.appendedScripts.Nodup →
      (st.scriptLoadPromises.map Prod.fst).Nodup →
      (∀ u p, (u, p) ∈ res → alookup u st.scriptLoadPromises = some p) →
      (runLoaderAux st res cs).1.appendedScripts.Nodup
      ∧ ((runLoaderAux st res cs).1.scriptLoadPromises.map Prod.fst).Nodup
      ∧ (∀ u p, (u, p) ∈ (runLoaderAux st res cs).2 →
          alookup u (runLoaderAux st res cs).1.scriptLoadPromises = some p) := by
  induction cs with
  | nil =>
    intro st res happ hkeys hres
    exact ⟨happ, hkeys, hres⟩
  | cons c cs ih =>
    intro st res happ hkeys hres
    have hinv := loadScriptOnce_invariant st c happ hkeys
    refine ih (loadScriptOnce st c).1 (res ++ [(c.src, (loadScriptOnce st c).2)])
      hinv.1 hinv.2 ?_
    intro u p hup
    rcases List.mem_append.mp hup with hold | hnew
    · exact loadScriptOnce_mono st c u p (hres u p hold)
    · simp only [List.mem_singleton, Prod.mk.injEq] at hnew
      rw [hnew.1, hnew.2]
      exact loadScriptOnce_result st c

/-- C4: across any sequence of `loadScriptOnce` calls (concurrent first calls
execute sequentially on the JS event loop): at most one script element is ever
appended per URL, the URL → promise cache is written exactly once per URL (its
keys stay duplicate-free, so a stored promise is never overwritten), every
call's returned promise is the cache's unique entry for its URL, and hence all
callers for one URL share a single promise and observe the same success or
failure outcome. -/
theorem loadScriptOnce_coalesces (cs : List LoaderCall) :
    (runLoader cs).1.appendedScripts.Nodup
  ∧ ((runLoader cs).1.scriptLoadPromises.map Prod.fst).Nodup
  ∧ (∀ u p, (u, p) ∈ (runLoader cs).2 →
      alookup u (runLoader cs).1.scriptLoadPromises = some p)
  ∧ (∀ u p q, (u, p) ∈ (runLoader cs).2 → (u, q) ∈ (runLoader cs).2 → p = q) := by
  have h := runLoaderAux_invariant cs initLoaderState []
    (by simp [initLoaderState]) (by simp [initLoaderState]) (by simp)
  refine ⟨h.1, h.2.1, h.2.2, ?_⟩
  intro u p q hp hq
  have hp' := h.2.2 u p hp
  have hq' := h.2.2 u q hq
  rw [hp'] at hq'
  exact Option.some_inj.mp hq'

theorem loadScriptOnce_coalesces_witness :
    alookup "bokeh.min.js"
      (runLoader [⟨"bokeh.min.js", false, false⟩,
        ⟨"bokeh.min.js", false, false⟩]).1.scriptLoadPromises = some 0 :=
  (loadScriptOnce_coalesces [⟨"bokeh.min.js", false, false⟩,
      ⟨"bokeh.min.js", false, false⟩]).2.2.1 "bokeh.min.js" 0
    (by simp [runLoader, runLoaderAux, loadScriptOnce, initLoaderState, alookup])

/-! ## Asset loader: global load ordering

From `ensureBokehCoreLoaded` and `loadBokehGlobally` (part_004 lines
135-200).  A fresh execution is modelled as an event trace; "completes within
the bounded timeout" is an environment boolean, and the arbitrary concurrent
interleaving of the plugin loads issued by `Promise.all` is an arbitrary event
list appended after the core phase. -/

/-- Events of one execution of the global loader. -/
inductive LoadEvent where
  | coreRequested
  | coreLoaded
  | globalVerified
  | pluginRequested (url : String)
  | pluginLoaded (url : String)
  | failed (msg : String)
deriving Repr, DecidableEq

/-- The asynchronous environment of a fresh `ensureBokehCoreLoaded` run:
whether `window.Bokeh` already exists, whether the core script's load event
fires within the timeout, and whether the global appears within the polling
timeout after the core load. -/
structure LoadEnv where
  bokehAlready : Bool
  coreLoadOk : Bool
  globalAppears : Bool
deriving Repr, DecidableEq

/-- The event trace and outcome of a fresh `ensureBokehCoreLoaded` execution:
an immediate return when `window.Bokeh` already exists (the entry point is
thereby verified), otherwise load the core script via `loadScriptOnce`, then
poll for the global, failing with a descriptive error when either step does
not complete within its timeout. -/
def ensureBokehCoreLoadedTrace (env : LoadEnv) : List LoadEvent × Bool :=
  if env.bokehAlready then
    ([.globalVerified], true)
  else if env.coreLoadOk then
    if env.globalAppears then
      ([.coreRequested, .coreLoaded, .globalVerified], true)
    else
      ([.coreRequested, .coreLoaded,
        .failed "Bokeh global not available after core load"], false)
  else
    ([.coreRequested, .failed "Failed to load script"], false)

/-- The event trace of `loadBokehGlobally`: the core phase, then — only on
its success — the plugin loads, issued concurrently (`pluginPhase` is an
arbitrary interleaving of their events). -/
def loadBokehGloballyTrace (env : LoadEnv) (pluginPhase : List LoadEvent) :
    List LoadEvent :=
  if (ensureBokehCoreLoadedTrace env).2 then
    (ensureBokehCoreLoadedTrace env).1 ++ pluginPhase
  else
    (ensureBokehCoreLoadedTrace env).1

/-- C5: in every execution of `loadBokehGlobally`, every plugin-load start is
preceded by verification that the global Bokeh entry point exists and — unless
the core was detected as already loaded — by completion of the core script's
load; if the core phase fails (load error, timeout, or missing global), no
plugin load ever begins and the trace ends with a descriptive error; the
plugin phase itself is an arbitrary interleaving, with no relative order
imposed among the plugins. -/
theorem loadBokehGlobally_ordering (env : LoadEnv) (pluginPhase : List LoadEvent) :
    (∀ i u, (loadBokehGloballyTrace env pluginPhase).get? i
        = some (.pluginRequested u) →
      ∃ k, k < i ∧ (loadBokehGloballyTrace env pluginPhase).get? k
        = some .globalVerified)
  ∧ (env.bokehAlready = false →
      ∀ i u, (loadBokehGloballyTrace env pluginPhase).get? i
          = some (.pluginRequested u) →
        ∃ j, j < i ∧ (loadBokehGloballyTrace env pluginPhase).get? j
          = some .coreLoaded)
  ∧ ((ensureBokehCoreLoadedTrace env).2 = false →
      (∀ i u, (loadBokehGloballyTrace env pluginPhase).get? i
          ≠ some (.pluginRequested u))
      ∧ ∃ msg, (loadBokehGloballyTrace env pluginPhase).getLast?
          = some (.failed msg)) := by
  obtain ⟨ba, ok, ga⟩ := env
  cases ba
  · cases ok
    · refine ⟨?_, fun _ => ?_, fun _ => ⟨?_, "Failed to load script", rfl⟩⟩ <;>
      · intro i u h
        simp only [loadBokehGloballyTrace, ensureBokehCoreLoadedTrace,
          Bool.false_eq_true, if_false, ite_false] at h ⊢
        match i with
        | 0 => simp [List.get?] at h
        | 1 => simp [List.get?] at h
        | (n + 2) => simp [List.get?] at h
    · cases ga
      · refine ⟨?_, fun _ => ?_, fun _ => ⟨?_,
          "Bokeh global not available after core load", rfl⟩⟩ <;>
        · intro i u h
          simp only [loadBokehGloballyTrace, ensureBokehCoreLoadedTrace,
            Bool.false_eq_true, if_false, ite_false, if_true, ite_true] at h ⊢
          match i with
          | 0 => simp [List.get?] at h
          | 1 => simp [List.get?] at h
          | 2 => simp [List.get?] at h
          | (n + 3) => simp [List.get?] at h
      · refine ⟨?_, fun _ => ?_, fun hfail => ?_⟩
        · intro i u h
          simp only [loadBokehGloballyTrace, ensureBokehCoreLoadedTrace,
            Bool.false_eq_true, if_false, ite_false, if_true, ite_true] at h ⊢
          match i with
          | 0 => simp [List.get?] at h
          | 1 => simp [List.get?] at h
          | 2 => simp [List.get?] at h
          | (n + 3) => exact ⟨2, by omega, rfl⟩
        · intro i u h
          simp only [loadBokehGloballyTrace, ensureBokehCoreLoadedTrace,
            Bool.false_eq_true, if_false, ite_false, if_true, ite_true] at h ⊢
          match i with
          | 0 => simp [List.get?] at h
          | 1 => simp [List.get?] at h
          | 2 => simp [List.get?] at h
          | (n + 3) => exact ⟨1, by omega, rfl⟩
        · simp [ensureBokehCoreLoadedTrace] at hfail
  · refine ⟨?_, fun hba => ?_, fun hfail => ?_⟩
    · intro i u h
      simp only [loadBokehGloballyTrace, ensureBokehCoreLoadedTrace,
        if_true, ite_true] at h ⊢
      match i with
      | 0 => simp [List.get?] at h
      | (n + 1) => exact ⟨0, by omega, rfl⟩
    · simp at hba
    · simp [ensureBokehCoreLoadedTrace] at hfail

theorem loadBokehGlobally_ordering_witness :
    ∃ k, k < 3 ∧ (loadBokehGloballyTrace ⟨false, true, true⟩
      [.pluginRequested "bokeh-widgets"]).get? k = some .globalVerified :=
  (loadBokehGlobally_ordering ⟨false, true, true⟩
    [.pluginRequested "bokeh-widgets"]).1 3 "bokeh-widgets" rfl

/-! ## Failed initialization

From `bokehComponent` (part_006 lines 230-235) together with
`ensureBokehCoreLoaded`'s module-scoped promise cache (part_004 lines 49-52
and 135-159): the per-instance `initialized` flag is set only after a
successful await of `loadBokehGlobally`, while the module keeps the first
(possibly rejected) core-load promise in `bokehLoadPromise` forever. -/

/-- The module-scoped core-load cache: `bokehLoadPromise` (`none` = never
started, `some true`/`some false` = promise settled successfully/rejected),
plus a count of actual core-load attempts issued. -/
structure GlobalLoadState where
  bokehLoadPromise : Option Bool
  coreLoadAttempts : ℕ
deriving Repr, DecidableEq

/-- One awaited call of `ensureBokehCoreLoaded`: immediate success when
`window.Bokeh` exists; otherwise the cached promise's outcome when one exists;
otherwise a fresh load attempt whose promise is cached, whatever its
outcome. -/
def ensureBokehCoreLoadedStep (windowBokeh freshLoadOutcome : Bool)
    (g : GlobalLoadState) : GlobalLoadState × Bool :=
  if windowBokeh then (g, true)
  else
    match g.bokehLoadPromise with
    | some outcome => (g, outcome)
    | none => (⟨some freshLoadOutcome, g.coreLoadAttempts + 1⟩, freshLoadOutcome)

/-- The initialization step of one `bokehComponent` render call for one
instance: when the instance is uninitialized, await the global loader; on
rejection, the call fails and `state.initialized = true` is never executed.
Returns the instance flag, the global state, and whether the call's
initialization succeeded. -/
def renderInit (windowBokeh freshLoadOutcome : Bool) (initialized : Bool)
    (g : GlobalLoadState) : Bool × GlobalLoadState × Bool :=
  if initialized then (initialized, g, true)
  else
    if (ensureBokehCoreLoadedStep windowBokeh freshLoadOutcome g).2 then
      (true, (ensureBokehCoreLoadedStep windowBokeh freshLoadOutcome g).1, true)
    else
      (false, (ensureBokehCoreLoadedStep windowBokeh freshLoadOutcome g).1, false)

/-- C7 counterexample: on a fresh page whose core load fails, the first render
call fails and leaves `initialized = false` — but the next render call does
NOT retry initialization from scratch: even in an environment where a fresh
load would now succeed, it observes the cached rejected `bokehLoadPromise`,
issues no new load attempt (the attempt count stays 1), and fails again. -/
theorem renderInit_cached_failure :
    renderInit false false false ⟨none, 0⟩ = (false, ⟨some false, 1⟩, false)
  ∧ renderInit false true false ⟨some false, 1⟩ = (false, ⟨some false, 1⟩, false) := by
  constructor
  · simp [renderInit, ensureBokehCoreLoadedStep]
  · simp [renderInit, ensureBokehCoreLoadedStep]

theorem renderInit_cachedFailure_fails (fo : Bool) (g' : GlobalLoadState)
    (h : g'.bokehLoadPromise = some false) :
    renderInit false fo false g' = (false, g', false) := by
  have he : ensureBokehCoreLoadedStep false fo g' = (g', false) := by
    simp [ensureBokehCoreLoadedStep, h]
  simp [renderInit, he]

/-- C7 amended: if initialization fails during a render call, that call fails
and the instance's `initialized` flag remains `false`, so the next render call
for the instance re-enters initialization — but not from scratch: the failed
core-load promise is cached in the module-scoped `bokehLoadPromise`, so
while the global entry point is absent every retry observes the same cached
failure without issuing a new load attempt. -/
theorem renderInit_failure_spec (windowBokeh freshLoadOutcome : Bool)
    (g : GlobalLoadState)
    (hfail : (renderInit windowBokeh freshLoadOutcome false g).2.2 = false) :
    ((renderInit windowBokeh freshLoadOutcome false g).1 = false)
  ∧ ((renderInit windowBokeh freshLoadOutcome false g).2.1.bokehLoadPromise
      = some false)
  ∧ (∀ freshLoadOutcome2,
      renderInit false freshLoadOutcome2
        (renderInit windowBokeh freshLoadOutcome false g).1
        (renderInit windowBokeh freshLoadOutcome false g).2.1
      = (false, (renderInit windowBokeh freshLoadOutcome false g).2.1, false)) := by
  by_cases hok : (ensureBokehCoreLoadedStep windowBokeh freshLoadOutcome g).2
  · simp [renderInit, hok] at hfail
  · have h1 : renderInit windowBokeh freshLoadOutcome false g
        = (false, (ensureBokehCoreLoadedStep windowBokeh freshLoadOutcome g).1, false) := by
      simp [renderInit, hok]
    have hwb : windowBokeh = false := by
      by_contra hwb
      simp only [Bool.not_eq_false] at hwb
      simp [ensureBokehCoreLoadedStep, hwb] at hok
    subst hwb
    have hcache : (ensureBokehCoreLoadedStep false freshLoadOutcome g).1.bokehLoadPromise
        = some false := by
      cases hg : g.bokehLoadPromise with
      | some outcome =>
        cases outcome
        · simp [ensureBokehCoreLoadedStep, hg]
        · simp [ensureBokehCoreLoadedStep, hg] at hok
      | none =>
        cases hf : freshLoadOutcome
        · simp [ensureBokehCoreLoadedStep, hg]
        · simp [ensureBokehCoreLoadedStep, hg, hf] at hok
    refine ⟨by simp [h1], by simp [h1, hcache], ?_⟩
    intro fo2
    rw [h1]
    exact renderInit_cachedFailure_fails fo2 _ hcache

theorem renderInit_failure_spec_witness :
    ((renderInit false false false ⟨none, 0⟩).1 = false)
  ∧ ((renderInit false false false ⟨none, 0⟩).2.1.bokehLoadPromise = some false) := by
  have h := renderInit_failure_spec false false ⟨none, 0⟩
    (by simp [renderInit, ensureBokehCoreLoadedStep])
  exact ⟨h.1, h.2.1⟩

/-! ## Theme translator

From `streamlitTheme` (streamlit-theme.ts lines 59-139).  The produced
`BokehTheme` wraps a nested attribute map from object-type name to
attribute-name to value; that map is embedded directly.  `transparentize`
comes from the external color2k library and is taken as a parameter. -/

/-- A Bokeh theme attribute value: string or number. -/
inductive AttrValue where
  | s (v : String)
  | n (v : ℚ)
deriving Repr, DecidableEq

/-- The host theme tokens read off the container's CSS custom properties and
passed to `streamlitTheme` (part_006 lines 255-263). -/
structure ThemeTokens where
  backgroundColor : String
  secondaryBackgroundColor : String
  textColor : String
  font : String
deriving Repr, DecidableEq

/-- The font stack hardcoded throughout `streamlitTheme` ("We hardcode the
font because if the font ever changes, We would need to include the relevant
font files anyways"). -/
def sourceSansPro : String := "\"Source Sans Pro\", sans-serif"

/-- The nested attribute map of the `BokehTheme` built by `streamlitTheme`. -/
def streamlitTheme (transparentize : String → ℚ → String) (theme : ThemeTokens) :
    List (String × List (String × AttrValue)) :=
  let fadedText10 := transparentize theme.textColor (8 / 10)
  [ ("Plot",
      [ ("background_fill_color", .s theme.backgroundColor),
        ("border_fill_color", .s theme.backgroundColor),
        ("outline_line_color", .s "transparent"),
        ("outline_line_alpha", .n (1 / 4)) ]),
    ("Grid",
      [ ("grid_line_color", .s fadedText10),
        ("grid_line_alpha", .n (1 / 2)) ]),
    ("Axis",
      [ ("major_tick_line_alpha", .n 0),
        ("major_tick_line_color", .s theme.textColor),
        ("minor_tick_line_alpha", .n 0),
        ("minor_tick_line_color", .s theme.textColor),
        ("axis_line_alpha", .n 0),
        ("axis_line_color", .s theme.textColor),
        ("major_label_text_color", .s theme.textColor),
        ("major_label_text_font", .s sourceSansPro),
        ("major_label_text_font_size", .s "1em"),
        ("axis_label_standoff", .n 10),
        ("axis_label_text_color", .s theme.textColor),
        ("axis_label_text_font", .s sourceSansPro),
        ("axis_label_text_font_size", .s "1em"),
        ("axis_label_text_font_style", .s "normal") ]),
    ("Legend",
      [ ("spacing", .n 8),
        ("glyph_width", .n 15),
        ("label_standoff", .n 8),
        ("label_text_color", .s theme.textColor),
        ("label_text_font", .s sourceSansPro),
        ("label_text_font_size", .s "1.025em"),
        ("border_line_alpha", .n 0),
        ("background_fill_alpha", .n (1 / 4)),
        ("background_fill_color", .s fadedText10) ]),
    ("BaseColorBar",
      [ ("title_text_color", .s theme.textColor),
        ("title_text_font", .s sourceSansPro),
        ("title_text_font_size", .s "1.025em"),
        ("title_text_font_style", .s "normal"),
        ("major_label_text_color", .s theme.textColor),
        ("major_label_text_font", .s sourceSansPro),
        ("major_label_text_font_size", .s "1.025em"),
        ("background_fill_color", .s theme.secondaryBackgroundColor),
        ("major_tick_line_alpha", .n 0),
        ("bar_line_alpha", .n 0) ]),
    ("Title",
      [ ("text_color", .s theme.textColor),
        ("text_font", .s sourceSansPro),
        ("text_font_size", .s "1.15em") ]) ]

/-- Attribute lookup in the nested theme map, as `BokehTheme.get` performs it
once the object's type name is known: unknown type or missing attribute gives
`none`. -/
def themeAttr (m : List (String × List (String × AttrValue)))
    (ty attr : String) : Option AttrValue :=
  match alookup ty m with
  | none => none
  | some attrs => alookup attr attrs

/-- C6 counterexample: with a host font token `"Arial"`, the axis-label font
family produced by `streamlitTheme` is the hardcoded
`"Source Sans Pro", sans-serif` stack, not the host token — the claim that
every font-family attribute equals the host-provided font token is false.
(`transparentize` is instantiated with a concrete function; the font
attributes do not involve it.) -/
theorem streamlitTheme_font_not_host_token :
    themeAttr (streamlitTheme (fun c _ => c)
        ⟨"#ffffff", "#f0f2f6", "#31333F", "Arial"⟩) "Axis" "axis_label_text_font"
      = some (.s sourceSansPro)
  ∧ sourceSansPro ≠ "Arial" := by
  constructor
  · rfl
  · decide

/-- C6 amended: for every host token input, every font-family attribute in the
theme map produced by `streamlitTheme` — axis labels (major and axis), legend
labels, color-bar titles and labels, and titles — equals the hardcoded
`"Source Sans Pro", sans-serif` stack (the host font token is not used), and
every font size is a fixed em-based relative unit not taken from the host. -/
theorem streamlitTheme_fonts_hardcoded (transparentize : String → ℚ → String)
    (theme : ThemeTokens) :
    (themeAttr (streamlitTheme transparentize theme) "Axis" "major_label_text_font"
      = some (.s sourceSansPro))
  ∧ (themeAttr (streamlitTheme transparentize theme) "Axis" "axis_label_text_font"
      = some (.s sourceSansPro))
  ∧ (themeAttr (streamlitTheme transparentize theme) "Legend" "label_text_font"
      = some (.s sourceSansPro))
  ∧ (themeAttr (streamlitTheme transparentize theme) "BaseColorBar" "title_text_font"
      = some (.s sourceSansPro))
  ∧ (themeAttr (streamlitTheme transparentize theme) "BaseColorBar" "major_label_text_font"
      = some (.s sourceSansPro))
  ∧ (themeAttr (streamlitTheme transparentize theme) "Title" "text_font"
      = some (.s sourceSansPro))
  ∧ (themeAttr (streamlitTheme transparentize theme) "Axis" "major_label_text_font_size"
      = some (.s "1em"))
  ∧ (themeAttr (streamlitTheme transparentize theme) "Axis" "axis_label_text_font_size"
      = some (.s "1em"))
  ∧ (themeAttr (streamlitTheme transparentize theme) "Legend" "label_text_font_size"
      = some (.s "1.025em"))
  ∧ (themeAttr (streamlitTheme transparentize theme) "BaseColorBar" "title_text_font_size"
      = some (.s "1.025em"))
  ∧ (themeAttr (streamlitTheme transparentize theme) "BaseColorBar" "major_label_text_font_size"
      = some (.s "1.025em"))
  ∧ (themeAttr (streamlitTheme transparentize theme) "Title" "text_font_size"
      = some (.s "1.15em")) := by
  refine ⟨?_, ?_, ?_, ?_, ?_, ?_, ?_, ?_, ?_, ?_, ?_, ?_⟩ <;> rfl

/-! ## Per-instance component state

From `componentState`, `getOrCreateInstanceState` and the cleanup callback of
`bokehComponent` (part_006 lines 189-212 and 273-276).  The `WeakMap` keyed by
the host element is an association list keyed by the host's identity (a
number); the per-instance record holds the initialization flag and the two
memoizing closures' states. -/

/-- The `ComponentState` record held per host element. -/
structure ComponentState (α : Type) where
  initialized : Bool
  themeState : ThemeState
  dataState : DataState α
deriving Repr, DecidableEq

/-- The record created on first render: uninitialized, with freshly
instantiated `setChartThemeGenerator()` and `getChartDataGenerator()`
closures. -/
def freshComponentState {α : Type} : ComponentState α :=
  ⟨false, initThemeState, initDataState⟩

/-- `getOrCreateInstanceState(host)`: return the existing record, or create,
store and return a fresh one. -/
def getOrCreateInstanceState {α : Type} (m : List (ℕ × ComponentState α))
    (host : ℕ) : List (ℕ × ComponentState α) × ComponentState α :=
  match alookup host m with
  | some st => (m, st)
  | none => (aset host freshComponentState m, freshComponentState)

/-- One render call's inputs: the host element identity and the component
data relevant to the change detector. -/
structure RenderCall where
  host : ℕ
  figure : String
  bokehTheme : String
  renderedAppTheme : String
deriving Repr, DecidableEq

/-- The change-detection portion of one `bokehComponent` render call (the
success path after assets load): fetch or create this host's record, run its
own `getChartData` and `setChartTheme` closures, and store the mutated record
back under the same host key. -/
def renderChecks {α : Type} (parse : String → α) (themes : List String)
    (m : List (ℕ × ComponentState α)) (c : RenderCall) :
    List (ℕ × ComponentState α) × (DataResult α × Bool) :=
  let pair := getOrCreateInstanceState m c.host
  let d := getChartData parse pair.2.dataState c.figure
  let t := setChartTheme themes pair.2.themeState c.bokehTheme c.renderedAppTheme
  (aset c.host ⟨true, t.1, d.1⟩ pair.1, (d.2, t.2))

/-- The teardown callback returned by `bokehComponent`: delete this host's
state record. -/
def cleanupInstance {α : Type} (m : List (ℕ × ComponentState α)) (host : ℕ) :
    List (ℕ × ComponentState α) :=
  aremove host m

theorem alookup_aset_self {κ β : Type} [DecidableEq κ] (u : κ) (v : β)
    (l : List (κ × β)) : alookup u (aset u v l) = some v := by
  induction l with
  | nil => simp [aset, alookup]
  | cons kv rest ih =>
    obtain ⟨k, w⟩ := kv
    by_cases hk : k = u
    · simp [aset, alookup, hk]
    · simp [aset, alookup, hk, ih]

theorem alookup_aset_ne {κ β : Type} [DecidableEq κ] (u k : κ) (v : β)
    (l : List (κ × β)) (h : k ≠ u) : alookup k (aset u v l) = alookup k l := by
  induction l with
  | nil => simp [aset, alookup, Ne.symm h]
  | cons kv rest ih =>
    obtain ⟨k', w⟩ := kv
    by_cases hk : k' = u
    · subst hk
      simp [aset, alookup, Ne.symm h]
    · simp [aset, alookup, hk, ih]

theorem alookup_aremove_self {κ β : Type} [DecidableEq κ] (u : κ)
    (l : List (κ × β)) : alookup u (aremove u l) = none := by
  induction l with
  | nil => simp [aremove, alookup]
  | cons kv rest ih =>
    obtain ⟨k, w⟩ := kv
    by_cases hk : k = u
    · simp [aremove, hk, ih]
    · simp [aremove, alookup, hk, ih]

theorem renderChecks_frame {α : Type} (parse : String → α) (themes : List String)
    (m : List (ℕ × ComponentState α)) (c : RenderCall) (h : ℕ) (hne : c.host ≠ h) :
    alookup h (renderChecks parse themes m c).1 = alookup h m := by
  unfold renderChecks getOrCreateInstanceState
  cases hm : alookup c.host m with
  | some st => simp [alookup_aset_ne _ _ _ _ (Ne.symm hne)]
  | none =>
    simp [alookup_aset_ne _ _ _ _ (Ne.symm hne)]

theorem renderChecks_congr {α : Type} (parse : String → α) (themes : List String)
    (m₁ m₂ : List (ℕ × ComponentState α)) (c : RenderCall)
    (hm : alookup c.host m₁ = alookup c.host m₂) :
    (renderChecks parse themes m₁ c).2 = (renderChecks parse themes m₂ c).2
    ∧ alookup c.host (renderChecks parse themes m₁ c).1
      = alookup c.host (renderChecks parse themes m₂ c).1 := by
  have hst : (getOrCreateInstanceState m₁ c.host).2
      = (getOrCreateInstanceState m₂ c.host).2 := by
    unfold getOrCreateInstanceState
    rw [hm]
    cases alookup c.host m₂ <;> rfl
  constructor
  · simp only [renderChecks]
    rw [hst]
  · simp only [renderChecks]
    rw [hst]
    simp [alookup_aset_self]

theorem renderChecks_fresh {α : Type} (parse : String → α) (themes : List String)
    (m : List (ℕ × ComponentState α)) (c : RenderCall)
    (hm : alookup c.host m = none) :
    (renderChecks parse themes m c).2
      = ((getChartData parse initDataState c.figure).2,
         (setChartTheme themes initThemeState c.bokehTheme c.renderedAppTheme).2) := by
  unfold renderChecks getOrCreateInstanceState
  rw [hm]
  rfl

/-- Run a sequence of render calls from a given state map, collecting each
call's host and change-detection results. -/
def runChecksFrom {α : Type} (parse : String → α) (themes : List String)
    (m : List (ℕ × ComponentState α)) :
    List RenderCall → List (ℕ × DataResult α × Bool)
  | [] => []
  | c :: cs =>
    (c.host, (renderChecks parse themes m c).2)
      :: runChecksFrom parse themes (renderChecks parse themes m c).1 cs

/-- The sub-sequence of results belonging to one host. -/
def resultsFor {β : Type} (h : ℕ) : List (ℕ × β) → List β
  | [] => []
  | (k, r) :: t => if k = h then r :: resultsFor h t else resultsFor h t

theorem runChecksFrom_isolated {α : Type} (parse : String → α)
    (themes : List String) (cs : List RenderCall) :
    ∀ (m₁ m₂ : List (ℕ × ComponentState α)) (h : ℕ),
      alookup h m₁ = alookup h m₂ →
      resultsFor h (runChecksFrom parse themes m₁ cs)
        = resultsFor h (runChecksFrom parse themes m₂
            (cs.filter (fun c => c.host == h))) := by
  induction cs with
  | nil => intro m₁ m₂ h _; rfl
  | cons c cs ih =>
    intro m₁ m₂ h hm
    by_cases hch : c.host = h
    · subst hch
      have hcongr := renderChecks_congr parse themes m₁ m₂ c hm
      simp only [List.filter_cons, beq_self_eq_true, if_pos, ite_true,
        runChecksFrom, resultsFor]
      rw [hcongr.1]
      exact congrArg _ (ih _ _ c.host hcongr.2)
    · have hframe := renderChecks_frame parse themes m₁ c h hch
      have hfilter : (c :: cs).filter (fun c => c.host == h)
          = cs.filter (fun c => c.host == h) := by
        simp [List.filter_cons, hch]
      rw [hfilter]
      simp only [runChecksFrom, resultsFor]
      rw [if_neg hch]
      exact ih _ _ h (hframe.trans hm)

/-- C8: the two memoizing closures live in a per-host record created fresh on
first use; a render call for one host never reads or changes another host's
record (frame), a call on a host with no record behaves exactly as the fresh
generators (freshness), and consequently the sequence of change-detection
results observed at any host over any interleaved call sequence equals the
results of that host's own calls run alone — each instance's results depend
only on its own call history. -/
theorem instanceState_isolation {α : Type} (parse : String → α)
    (themes : List String) (cs : List RenderCall) (h : ℕ) :
    (∀ (m : List (ℕ × ComponentState α)) (c : RenderCall), c.host ≠ h →
      alookup h (renderChecks parse themes m c).1 = alookup h m)
  ∧ (∀ (m : List (ℕ × ComponentState α)) (c : RenderCall),
      alookup c.host m = none →
      (renderChecks parse themes m c).2
        = ((getChartData parse initDataState c.figure).2,
           (setChartTheme themes initThemeState c.bokehTheme c.renderedAppTheme).2))
  ∧ resultsFor h (runChecksFrom parse themes ([] : List (ℕ × ComponentState α)) cs)
      = resultsFor h (runChecksFrom parse themes ([] : List (ℕ × ComponentState α))
          (cs.filter (fun c => c.host == h))) :=
  ⟨fun m c hne => renderChecks_frame parse themes m c h hne,
   fun m c hm => renderChecks_fresh parse themes m c hm,
   runChecksFrom_isolated parse themes cs [] [] h rfl⟩

theorem instanceState_isolation_witness :
    alookup 0 (renderChecks String.length ([] : List String)
      ([] : List (ℕ × ComponentState ℕ)) ⟨1, "fig", "dark", "snap"⟩).1 = none := by
  have h := (instanceState_isolation String.length [] [] 0).1 []
    ⟨1, "fig", "dark", "snap"⟩ (by decide)
  exact h.trans rfl

/-- C10: after an instance's teardown callback deletes its state record, the
host has no record any more; the next render call for that host therefore
creates fresh memoization state, so its data check reports
`hasChanged = true` and returns the parse of the figure — even when the same
figure string had been seen before teardown — and the re-render condition
`hasChanged || themeChanged` of `bokehComponent` holds. -/
theorem cleanup_fresh_state_rerender {α : Type} (parse : String → α)
    (themes : List String) (m : List (ℕ × ComponentState α)) (host : ℕ)
    (figure bokehTheme snap : String) :
    (alookup host (cleanupInstance m host) = none)
  ∧ ((renderChecks parse themes (cleanupInstance m host)
        ⟨host, figure, bokehTheme, snap⟩).2.1 = ⟨some (parse figure), true⟩)
  ∧ (((renderChecks parse themes (cleanupInstance m host)
        ⟨host, figure, bokehTheme, snap⟩).2.1.hasChanged
      || (renderChecks parse themes (cleanupInstance m host)
        ⟨host, figure, bokehTheme, snap⟩).2.2) = true) := by
  have hnone : alookup host (cleanupInstance m host) = none :=
    alookup_aremove_self host m
  have hfresh := renderChecks_fresh parse themes (cleanupInstance m host)
    ⟨host, figure, bokehTheme, snap⟩ hnone
  have hdata : (getChartData parse (initDataState (α := α)) figure).2
      = ⟨some (parse figure), true⟩ := by
    simp [getChartData, initDataState]
  refine ⟨hnone, ?_, ?_⟩
  · rw [hfresh]
    exact hdata
  · rw [hfresh]
    simp [hdata]

end StreamlitBokeh
